import Mathlib

/-!
# Verification of the DHS rainfall-exposure pipelines

A shallow embedding of the three Python pipelines of
`Rainfall-variability-and-under-five-child-mortality`
(`calculate_extreme_precip.py`, `calculate_rainfall_deviation.py`,
`calculate_wet_days.py`) together with proofs about the properties the
specification claims.

Floating-point values that can be NaN in the Python code (pandas means and
standard deviations of possibly-empty series) are modelled by the type `Fl`
below: either `nan`, or an exact rational `val q`.  Arithmetic propagates
`nan`, and every comparison involving `nan` is false, exactly as for IEEE
NaN under Python/pandas semantics.  Daily precipitation amounts and CSV
scalars are exact rationals.
-/

/-- Model of a Python float as used by the pipelines: either NaN or an exact
rational value.  (Infinities never arise: every division in the code is
guarded by a zero test on the denominator.) -/
inductive Fl where
  | nan : Fl
  | val : ℚ → Fl
deriving DecidableEq, Repr

namespace Fl

/-- Addition; NaN propagates. -/
def add : Fl → Fl → Fl
  | val a, val b => val (a + b)
  | _, _ => nan

/-- Subtraction; NaN propagates. -/
def sub : Fl → Fl → Fl
  | val a, val b => val (a - b)
  | _, _ => nan

/-- Multiplication; NaN propagates. -/
def mul : Fl → Fl → Fl
  | val a, val b => val (a * b)
  | _, _ => nan

/-- Division; NaN propagates.  Division by zero is mapped to `nan`; the code
never divides by zero, because every division is behind a zero test. -/
def div : Fl → Fl → Fl
  | val a, val b => if b = 0 then nan else val (a / b)
  | _, _ => nan

instance : Add Fl := ⟨Fl.add⟩
instance : Sub Fl := ⟨Fl.sub⟩
instance : Mul Fl := ⟨Fl.mul⟩
instance : Div Fl := ⟨Fl.div⟩

/-- Python `==` on floats: any comparison with NaN is false. -/
def beq : Fl → Fl → Bool
  | val a, val b => a == b
  | _, _ => false

/-- Python `<` on floats: any comparison with NaN is false. -/
def ltb : Fl → Fl → Bool
  | val a, val b => decide (a < b)
  | _, _ => false

end Fl

/-- Python `sum` over a list of floats: a left fold starting from `0`. -/
def pySum (l : List Fl) : Fl := l.foldl Fl.add (Fl.val 0)

/-- pandas `Series.mean()`: NaN on an empty series, otherwise the exact
arithmetic mean. -/
def flMean (xs : List ℚ) : Fl :=
  if xs = [] then Fl.nan else Fl.val (xs.sum / xs.length)

/-- Sample variance with one delta degree of freedom (pandas default),
exact over ℚ.  Only meaningful for lists of length ≥ 2. -/
def sampleVar (xs : List ℚ) : ℚ :=
  let m : ℚ := xs.sum / xs.length
  ((xs.map (fun x => (x - m) ^ 2)).sum) / (xs.length - 1)

/-- pandas `Series.std()` (ddof = 1): NaN for fewer than two observations,
otherwise the square root of the sample variance.  The floating-point square
root itself is abstracted as the parameter `sq`: no claim below depends on
the numeric value of a non-degenerate standard deviation, only on whether it
is NaN, zero, or something else. -/
def sampleStd (sq : ℚ → ℚ) (xs : List ℚ) : Fl :=
  if xs.length < 2 then Fl.nan else Fl.val (sq (sampleVar xs))

/-- A calendar date, as carried by `pd.Timestamp`. -/
structure Date where
  year : ℤ
  month : ℤ
  day : ℤ
deriving DecidableEq, Repr

/-- Gregorian leap-year test. -/
def isLeapYear (y : ℤ) : Bool :=
  (y % 4 == 0 && y % 100 != 0) || (y % 400 == 0)

/-- Number of days of a calendar month. -/
def daysInMonth (y mo : ℤ) : ℤ :=
  if mo = 2 then (if isLeapYear y then 29 else 28)
  else if mo = 4 ∨ mo = 6 ∨ mo = 9 ∨ mo = 11 then 30
  else 31

/-- `date - pd.DateOffset(months=m)`: calendar month arithmetic.  The
year/month pair moves back exactly `m` calendar months; the day of month is
preserved, clamped to the length of the target month (pandas semantics). -/
def monthsAgo (d : Date) (m : ℕ) : Date :=
  let idx : ℤ := d.year * 12 + (d.month - 1) - m
  let y := idx / 12
  let mo := idx % 12 + 1
  { year := y, month := mo, day := min d.day (daysInMonth y mo) }

/-- One row of a daily precipitation CSV: a date and a precipitation
amount `tp` (mm). -/
structure Day where
  date : Date
  tp : ℚ
deriving DecidableEq, Repr

/-- The pandas month filter used by all three aggregators:
`(time.dt.year == year) & (time.dt.month == month)` for the target date. -/
def inMonth (target : Date) (d : Day) : Bool :=
  d.date.year == target.year && d.date.month == target.month

/-- One row of a DHS input table: the columns the pipelines read. -/
structure Row where
  dhsid : String
  survey : String
  death_date : Date
deriving DecidableEq, Repr

/-- The minimum-year filter
`df = df[df['death_date_lag_0'].dt.year >= MIN_YEAR]` (MIN_YEAR = 1981),
identical in the three drivers. -/
def filterMinYear (rows : List Row) : List Row :=
  rows.filter (fun r => 1981 ≤ r.death_date.year)

/-- `calc_extreme_precip` of `calculate_extreme_precip.py`: for the target
month, the count of days above the threshold, the excess above the
threshold, and the intensity relative to the wet-day average. -/
def calc_extreme_precip (target : Date) (precip : List Day)
    (threshold : ℚ) (avg : Fl) : ℕ × ℚ × Fl :=
  let monthly := precip.filter (inMonth target)
  let extreme := monthly.filter (fun d => decide (threshold < d.tp))
  if extreme.length = 0 then (0, 0, Fl.val 0)
  else
    let n := extreme.length
    let excess := (extreme.map (·.tp)).sum - threshold * n
    let intensity :=
      if (Fl.val 0).ltb avg then Fl.val excess / avg else Fl.val 0
    (n, excess, intensity)

/-- `calc_wet_days` of `calculate_wet_days.py`: the count of days of the
target month whose precipitation strictly exceeds the threshold. -/
def calc_wet_days (target : Date) (precip : List Day)
    (threshold : ℚ := 1) : ℕ :=
  let monthly := precip.filter (inMonth target)
  (monthly.filter (fun d => decide (threshold < d.tp))).length

/-- Historical reference statistics for the RSD computation, as produced by
`calculate_historical_stats` or `load_precomputed_stats`. -/
structure HistStats where
  monthly_mean : ℤ → Fl
  monthly_std : Fl
  annual_mean : Fl

/-- Total precipitation of one (year, month) group. -/
def monthTotal (data : List Day) (y mo : ℤ) : ℚ :=
  ((data.filter (fun d => d.date.year == y && d.date.month == mo)).map
    (·.tp)).sum

/-- Total precipitation of one year group. -/
def yearTotal (data : List Day) (y : ℤ) : ℚ :=
  ((data.filter (fun d => d.date.year == y)).map (·.tp)).sum

/-- `calculate_historical_stats` of `calculate_rainfall_deviation.py`:
restrict to the historical period 1980–2020, then take per-calendar-month
means of monthly totals, the pooled sample standard deviation of all
(year, month) totals, and the mean annual total.  `sq` abstracts the
floating-point square root (see `sampleStd`). -/
def calculate_historical_stats (sq : ℚ → ℚ) (precip : List Day) :
    HistStats :=
  let hist := precip.filter
    (fun d => 1980 ≤ d.date.year && d.date.year ≤ 2020)
  let groups := (hist.map (fun d => (d.date.year, d.date.month))).dedup
  let monthlyTotals := groups.map (fun p => monthTotal hist p.1 p.2)
  let years := (hist.map (·.date.year)).dedup
  { monthly_mean := fun mo =>
      flMean ((groups.filter (fun p => p.2 == mo)).map
        (fun p => monthTotal hist p.1 p.2))
    monthly_std := sampleStd sq monthlyTotals
    annual_mean := flMean (years.map (yearTotal hist)) }

/-- `calc_monthly_rsd` of `calculate_rainfall_deviation.py`: standardized
rainfall deviation of the target month.  Returns 0.0 when the pooled std or
the annual mean compares equal to zero (a NaN statistic does not: NaN == 0
is false). -/
def calc_monthly_rsd (target : Date) (precip : List Day)
    (hs : HistStats) : Fl :=
  let actual := Fl.val (monthTotal precip target.year target.month)
  let histMean := hs.monthly_mean target.month
  if hs.monthly_std.beq (Fl.val 0) || hs.annual_mean.beq (Fl.val 0) then
    Fl.val 0
  else
    ((actual - histMean) / hs.monthly_std) *
      (histMean / hs.annual_mean)

/-- `calc_cumulative_rsd` of `calculate_rainfall_deviation.py`: the running
sum of the monthly RSD values of the `n` months before `target`. -/
def calc_cumulative_rsd (target : Date) (precip : List Day)
    (hs : HistStats) (n : ℕ) : Fl :=
  (List.range n).foldl
    (fun acc i =>
      acc.add (calc_monthly_rsd (monthsAgo target (i + 1)) precip hs))
    (Fl.val 0)

/-! ## The file drivers

The three `process_file` drivers are embedded over an abstract file system
`Env` (city-list mapping files, per-city daily precipitation files, and the
shared threshold/statistics table `all_points_dhs_prep.csv`).  Path and CSV
mechanics are out of scope; lookups that raise in Python (`.values[0]` on an
empty selection, a missing file in `pd.read_csv`) are modelled as `Except`
errors, and the per-file `try/except` handler as `Except.toOption`, so a
failed file is `none` — the same value for a missing input file and for an
unhandled lookup failure. -/

/-- The input files a worker can read. -/
structure Env where
  /-- `CITY_LIST_DIR / f'{survey_id}.csv'`: per-survey mapping DHSID → city id;
  `none` means the file is absent. -/
  cityLists : String → Option (List (String × ℤ))
  /-- `PRECIP_DIR / survey / f'{city_id}.csv'`: daily series per city id. -/
  precipFiles : ℤ → Option (List Day)
  /-- The `p999` column of `all_points_dhs_prep.csv`, keyed by DHSID. -/
  thresholdFile : Option (List (String × ℚ))
  /-- The historical-statistics columns of `all_points_dhs_prep.csv`. -/
  statsFile : Option (List (String × HistStats))

/-- The row loop of a driver: the first raised exception aborts the whole
file (Python `for` loop inside `try`). -/
def mapE (f : α → Except String β) : List α → Except String (List β)
  | [] => .ok []
  | x :: xs =>
    match f x with
    | .error e => .error e
    | .ok y =>
      match mapE f xs with
      | .error e => .error e
      | .ok ys => .ok (y :: ys)

namespace ExtremePrecip

/-- `load_precip_data` of `calculate_extreme_precip.py`: city-list lookup,
daily series, p999 threshold lookup, and the wet-day average
`precip[precip['tp'] > 0]['tp'].mean()` (NaN when no wet day exists). -/
def load_precip_data (env : Env) (dhsid survey : String)
    (threshold_df : List (String × ℚ)) :
    Except String (List Day × ℚ × Fl) :=
  match env.cityLists survey with
  | none => .error "city list file not found"
  | some cm =>
    match cm.find? (fun p => p.1 == dhsid) with
    | none => .error "DHSID not in city list"
    | some cRow =>
      match env.precipFiles cRow.2 with
      | none => .error "precip file not found"
      | some pr =>
        match threshold_df.find? (fun p => p.1 == dhsid) with
        | none => .error "DHSID not in threshold table"
        | some tRow =>
          .ok (pr, tRow.2,
            flMean ((pr.filter (fun d => decide (0 < d.tp))).map (·.tp)))

/-- One output row: the input row plus the appended columns
`p999_days_m`, `p999_excess_m`, `p999_intensity_m` (m = 1..12) and the two
annual sums. -/
structure OutRow where
  row : Row
  monthly : List (ℕ × ℚ × Fl)
  annual_days : ℕ
  annual_excess : ℚ
deriving DecidableEq, Repr

/-- The per-row body of the driver loop of `calculate_extreme_precip.py`. -/
def process_row (env : Env) (threshold_df : List (String × ℚ))
    (row : Row) : Except String OutRow :=
  match load_precip_data env row.dhsid row.survey threshold_df with
  | .error e => .error e
  | .ok (pr, th, avg) =>
    let monthly := (List.range 12).map
      (fun i => calc_extreme_precip (monthsAgo row.death_date (i + 1)) pr th avg)
    .ok { row := row, monthly := monthly,
          annual_days := (monthly.map (·.1)).sum,
          annual_excess := (monthly.map (fun x => x.2.1)).sum }

/-- `process_file` of `calculate_extreme_precip.py`: read the threshold
table, filter by minimum year, process every row; any exception marks the
whole file failed (`none`). -/
def process_file (env : Env) (rows : List Row) : Option (List OutRow) :=
  match env.thresholdFile with
  | none => none
  | some tdf => (mapE (process_row env tdf) (filterMinYear rows)).toOption

end ExtremePrecip

namespace WetDays

/-- `load_precip_data` of `calculate_wet_days.py`. -/
def load_precip_data (env : Env) (dhsid survey : String) :
    Except String (List Day) :=
  match env.cityLists survey with
  | none => .error "city list file not found"
  | some cm =>
    match cm.find? (fun p => p.1 == dhsid) with
    | none => .error "DHSID not in city list"
    | some cRow =>
      match env.precipFiles cRow.2 with
      | none => .error "precip file not found"
      | some pr => .ok pr

/-- One output row: the input row plus `wet_days_1..12` and
`wet_days_annual`. -/
structure OutRow where
  row : Row
  monthly : List ℕ
  wet_days_annual : ℕ
deriving DecidableEq, Repr

/-- The per-row body of the driver loop of `calculate_wet_days.py`. -/
def process_row (env : Env) (row : Row) : Except String OutRow :=
  match load_precip_data env row.dhsid row.survey with
  | .error e => .error e
  | .ok pr =>
    let monthly := (List.range 12).map
      (fun i => calc_wet_days (monthsAgo row.death_date (i + 1)) pr)
    .ok { row := row, monthly := monthly, wet_days_annual := monthly.sum }

/-- `process_file` of `calculate_wet_days.py`. -/
def process_file (env : Env) (rows : List Row) : Option (List OutRow) :=
  (mapE (process_row env) (filterMinYear rows)).toOption

end WetDays

namespace RainfallDeviation

/-- `load_precip_data` of `calculate_rainfall_deviation.py` (identical to
the wet-days one). -/
def load_precip_data (env : Env) (dhsid survey : String) :
    Except String (List Day) :=
  match env.cityLists survey with
  | none => .error "city list file not found"
  | some cm =>
    match cm.find? (fun p => p.1 == dhsid) with
    | none => .error "DHSID not in city list"
    | some cRow =>
      match env.precipFiles cRow.2 with
      | none => .error "precip file not found"
      | some pr => .ok pr

/-- `load_precomputed_stats` of `calculate_rainfall_deviation.py`: returns
`none` (never raises) when the statistics file is unreadable or has no row
for the DHSID — its body checks `len(location_stats) == 0` and wraps
everything in its own `try/except` returning `None`. -/
def load_precomputed_stats (env : Env) (dhsid : String) : Option HistStats :=
  match env.statsFile with
  | none => none
  | some tbl => (tbl.find? (fun p => p.1 == dhsid)).map (·.2)

/-- The statistics the driver uses for a row: precomputed if available,
otherwise computed on the fly from the daily series. -/
def statsFor (sq : ℚ → ℚ) (env : Env) (dhsid : String)
    (pr : List Day) : HistStats :=
  match load_precomputed_stats env dhsid with
  | some hs => hs
  | none => calculate_historical_stats sq pr

/-- One output row: the input row plus `rsd_month_1..12`,
`rsd_cumulative_1..12`, `rsd_annual`, `rsd_positive`, `rsd_negative`. -/
structure OutRow where
  row : Row
  monthly : List Fl
  cumulative : List Fl
  rsd_annual : Fl
  rsd_positive : Fl
  rsd_negative : Fl
deriving DecidableEq, Repr

/-- The per-row body of the driver loop of
`calculate_rainfall_deviation.py`, including the positive/negative split
`x if x > 0 else 0` / `x if x < 0 else 0` applied to `rsd_annual`
(= `rsd_cumulative_12`). -/
def process_row (sq : ℚ → ℚ) (env : Env) (row : Row) :
    Except String OutRow :=
  match load_precip_data env row.dhsid row.survey with
  | .error e => .error e
  | .ok pr =>
    let hs := statsFor sq env row.dhsid pr
    let monthly := (List.range 12).map
      (fun i => calc_monthly_rsd (monthsAgo row.death_date (i + 1)) pr hs)
    let cumulative := (List.range 12).map
      (fun m => pySum (monthly.take (m + 1)))
    let annual := pySum (monthly.take 12)
    .ok { row := row, monthly := monthly, cumulative := cumulative,
          rsd_annual := annual,
          rsd_positive := if (Fl.val 0).ltb annual then annual else Fl.val 0,
          rsd_negative := if annual.ltb (Fl.val 0) then annual else Fl.val 0 }

/-- `process_file` of `calculate_rainfall_deviation.py`. -/
def process_file (sq : ℚ → ℚ) (env : Env) (rows : List Row) :
    Option (List OutRow) :=
  (mapE (process_row sq env) (filterMinYear rows)).toOption

end RainfallDeviation

/-! ## Concrete fixtures

Small closed inputs used by the witnesses and counterexamples below. -/

/-- Non-degenerate precomputed statistics (all months mean 0, std 1,
annual mean 1). -/
def hsA : HistStats := ⟨fun _ => Fl.val 0, Fl.val 1, Fl.val 1⟩

/-- A record dated 1990-05-10 (passes the 1981 filter). -/
def rowA : Row := ⟨"X", "S", ⟨1990, 5, 10⟩⟩

/-- A record dated 1975-05-10 (fails the 1981 filter). -/
def rowOld : Row := ⟨"Y", "S", ⟨1975, 5, 10⟩⟩

/-- A file system where every lookup for `rowA` succeeds and the daily
series is empty. -/
def envA : Env :=
  { cityLists := fun _ => some [("X", 1)]
    precipFiles := fun _ => some []
    thresholdFile := some [("X", 50)]
    statsFile := some [("X", hsA)] }

/-- A file system where the mapping and series exist, but the shared
threshold/statistics table has no row at all, so every per-DHSID lookup in
it finds no matching row. -/
def envB : Env :=
  { cityLists := fun _ => some [("X", 1)]
    precipFiles := fun _ => some []
    thresholdFile := some []
    statsFile := some [] }

/-- Daily precipitation for April 1990: 15 mm, 2 mm and exactly 1 mm (the
last is not a wet day under the strict default threshold). -/
def dataC : List Day :=
  [⟨⟨1990, 4, 5⟩, 15⟩, ⟨⟨1990, 4, 20⟩, 2⟩, ⟨⟨1990, 4, 21⟩, 1⟩]

/-- Like `envA` but with the April-1990 series `dataC`. -/
def envC : Env :=
  { cityLists := fun _ => some [("X", 1)]
    precipFiles := fun _ => some dataC
    thresholdFile := some [("X", 50)]
    statsFile := some [("X", hsA)] }

/-- The days of the target month whose precipitation strictly exceeds a
threshold: the reference set both counting aggregators are measured
against. -/
def exceedingDays (target : Date) (precip : List Day) (t : ℚ) : List Day :=
  precip.filter (fun d => inMonth target d && decide (t < d.tp))

/-- The excess above the threshold over the exceeding days, as the claim
words it: the sum of those days minus threshold times their count. -/
def excessOf (target : Date) (precip : List Day) (t : ℚ) : ℚ :=
  ((exceedingDays target precip t).map (·.tp)).sum -
    t * (exceedingDays target precip t).length

/-- A file system whose city-list files exist but hold no row, so every
city-id lookup finds no matching row. -/
def envD : Env :=
  { cityLists := fun _ => some []
    precipFiles := fun _ => some []
    thresholdFile := some [("X", 50)]
    statsFile := some [("X", hsA)] }

/-- Degenerate precomputed statistics with pooled std exactly 0. -/
def hsZ : HistStats := ⟨fun _ => Fl.val 7, Fl.val 0, Fl.val 3⟩

/-- Like `envA` but the precomputed statistics for "X" are `hsZ`. -/
def envZ : Env :=
  { cityLists := fun _ => some [("X", 1)]
    precipFiles := fun _ => some []
    thresholdFile := some [("X", 50)]
    statsFile := some [("X", hsZ)] }

/-- The deviation-pipeline output row for `rowA` under `envB`: the
on-the-fly statistics of the empty series are NaN, so every monthly and
cumulative RSD is NaN while the positive/negative split is 0. -/
def outN : RainfallDeviation.OutRow :=
  ⟨rowA, List.replicate 12 Fl.nan, List.replicate 12 Fl.nan,
    Fl.nan, Fl.val 0, Fl.val 0⟩

/-- The wet-days output row for `rowA` under `envC`. -/
def outC : WetDays.OutRow :=
  ⟨rowA, [2, 0, 0, 0, 0, 0, 0, 0, 0, 0, 0, 0], 2⟩

/-- The deviation-pipeline output row for `rowA` under `envZ`: the zero-std
guard makes every monthly RSD exactly 0. -/
def outZ : RainfallDeviation.OutRow :=
  ⟨rowA, List.replicate 12 (Fl.val 0), List.replicate 12 (Fl.val 0),
    Fl.val 0, Fl.val 0, Fl.val 0⟩

/-! ## Helper lemmas -/

@[simp] theorem Fl.val_add_val (a b : ℚ) :
    Fl.val a + Fl.val b = Fl.val (a + b) := rfl

@[simp] theorem Fl.val_sub_val (a b : ℚ) :
    Fl.val a - Fl.val b = Fl.val (a - b) := rfl

@[simp] theorem Fl.val_mul_val (a b : ℚ) :
    Fl.val a * Fl.val b = Fl.val (a * b) := rfl

theorem Fl.val_div_val (a b : ℚ) :
    Fl.val a / Fl.val b = if b = 0 then Fl.nan else Fl.val (a / b) := rfl

@[simp] theorem Fl.beq_val_val (a b : ℚ) :
    (Fl.val a).beq (Fl.val b) = (a == b) := rfl

@[simp] theorem Fl.beq_nan_left (x : Fl) : Fl.nan.beq x = false := rfl

@[simp] theorem Fl.ltb_val_val (a b : ℚ) :
    (Fl.val a).ltb (Fl.val b) = decide (a < b) := rfl

@[simp] theorem Fl.ltb_nan_right (x : Fl) : x.ltb Fl.nan = false := by
  cases x <;> rfl

theorem mapE_ok_mem {f : α → Except String β} :
    ∀ {l : List α} {l' : List β}, mapE f l = .ok l' →
      ∀ y ∈ l', ∃ x ∈ l, f x = .ok y := by
  intro l
  induction l with
  | nil =>
    intro l' h y hy
    simp only [mapE] at h
    cases h
    simp at hy
  | cons x xs ih =>
    intro l' h y hy
    simp only [mapE] at h
    cases hx : f x with
    | error e => rw [hx] at h; cases h
    | ok b =>
      rw [hx] at h
      cases hxs : mapE f xs with
      | error e => rw [hxs] at h; cases h
      | ok bs =>
        rw [hxs] at h
        cases h
        rcases List.mem_cons.mp hy with rfl | hmem
        · exact ⟨x, List.mem_cons_self .., hx⟩
        · obtain ⟨x', hx', hfx'⟩ := ih hxs y hmem
          exact ⟨x', List.mem_cons_of_mem _ hx', hfx'⟩

theorem mapE_error_of_mem {f : α → Except String β} {x : α} {e : String} :
    ∀ {l : List α}, x ∈ l → f x = .error e →
      ∃ e', mapE f l = .error e' := by
  intro l
  induction l with
  | nil => intro h; simp at h
  | cons z zs ih =>
    intro hmem hfx
    rcases List.mem_cons.mp hmem with rfl | hmem
    · exact ⟨e, by simp only [mapE]; rw [hfx]⟩
    · cases hz : f z with
      | error e' => exact ⟨e', by simp only [mapE]; rw [hz]⟩
      | ok b =>
        obtain ⟨e', he'⟩ := ih hmem hfx
        exact ⟨e', by simp only [mapE]; rw [hz, he']⟩

theorem mapE_ok_map {f : α → Except String β} {g : β → α}
    (hg : ∀ x y, f x = .ok y → g y = x) :
    ∀ {l : List α} {l' : List β}, mapE f l = .ok l' → l'.map g = l := by
  intro l
  induction l with
  | nil =>
    intro l' h
    simp only [mapE] at h
    cases h
    rfl
  | cons x xs ih =>
    intro l' h
    simp only [mapE] at h
    cases hx : f x with
    | error e => rw [hx] at h; cases h
    | ok b =>
      rw [hx] at h
      cases hxs : mapE f xs with
      | error e => rw [hxs] at h; cases h
      | ok bs =>
        rw [hxs] at h
        cases h
        simp [hg x b hx, ih hxs]

theorem extreme_process_row_ok_row {env : Env}
    {tdf : List (String × ℚ)} {r : Row} {y : ExtremePrecip.OutRow}
    (h : ExtremePrecip.process_row env tdf r = .ok y) : y.row = r := by
  unfold ExtremePrecip.process_row at h
  cases hl : ExtremePrecip.load_precip_data env r.dhsid r.survey tdf with
  | error e => rw [hl] at h; cases h
  | ok p =>
    obtain ⟨pr, th, avg⟩ := p
    rw [hl] at h
    cases h
    rfl

theorem wet_process_row_ok_row {env : Env} {r : Row}
    {y : WetDays.OutRow}
    (h : WetDays.process_row env r = .ok y) : y.row = r := by
  unfold WetDays.process_row at h
  cases hl : WetDays.load_precip_data env r.dhsid r.survey with
  | error e => rw [hl] at h; cases h
  | ok pr => rw [hl] at h; cases h; rfl

theorem WetDays.process_row_annual {env : Env} {r : Row}
    {y : WetDays.OutRow}
    (h : WetDays.process_row env r = .ok y) :
    y.wet_days_annual = y.monthly.sum := by
  unfold WetDays.process_row at h
  cases hl : WetDays.load_precip_data env r.dhsid r.survey with
  | error e => rw [hl] at h; cases h
  | ok pr => rw [hl] at h; cases h; rfl

theorem rsd_process_row_ok_row {sq : ℚ → ℚ} {env : Env}
    {r : Row} {y : RainfallDeviation.OutRow}
    (h : RainfallDeviation.process_row sq env r = .ok y) : y.row = r := by
  unfold RainfallDeviation.process_row at h
  cases hl : RainfallDeviation.load_precip_data env r.dhsid r.survey with
  | error e => rw [hl] at h; cases h
  | ok pr => rw [hl] at h; cases h; rfl

theorem RainfallDeviation.process_row_shape {sq : ℚ → ℚ} {env : Env}
    {r : Row} {pr : List Day} {y : RainfallDeviation.OutRow}
    (hl : RainfallDeviation.load_precip_data env r.dhsid r.survey = .ok pr)
    (h : RainfallDeviation.process_row sq env r = .ok y) :
    y.monthly = (List.range 12).map (fun i =>
      calc_monthly_rsd (monthsAgo r.death_date (i + 1)) pr
        (RainfallDeviation.statsFor sq env r.dhsid pr)) ∧
    y.cumulative = (List.range 12).map
      (fun m => pySum (y.monthly.take (m + 1))) ∧
    y.rsd_annual = pySum (y.monthly.take 12) ∧
    y.rsd_positive =
      (if (Fl.val 0).ltb y.rsd_annual then y.rsd_annual else Fl.val 0) ∧
    y.rsd_negative =
      (if y.rsd_annual.ltb (Fl.val 0) then y.rsd_annual else Fl.val 0) := by
  unfold RainfallDeviation.process_row at h
  rw [hl] at h
  cases h
  exact ⟨rfl, rfl, rfl, rfl, rfl⟩

theorem calc_cumulative_rsd_eq_pySum (target : Date) (precip : List Day)
    (hs : HistStats) (k : ℕ) :
    calc_cumulative_rsd target precip hs k =
      pySum ((List.range k).map (fun i =>
        calc_monthly_rsd (monthsAgo target (i + 1)) precip hs)) := by
  simp [calc_cumulative_rsd, pySum, List.foldl_map]

/-! ## Claims -/

/-- C5: for every reference date and every lookback offset m, the target
month the drivers hand to the aggregators
(`base_date - pd.DateOffset(months=m)`, embedded as `monthsAgo`) is the
calendar month exactly m calendar months before the reference date — the
year*12+month index drops by exactly m and the month stays in 1..12 — not a
fixed-30-day shift; in particular 2020-03-15 gives February 2020 for m = 1
and March 2019 for m = 12. -/
theorem target_month_calendar (d : Date) (m : ℕ) :
    ((monthsAgo d m).year * 12 + (monthsAgo d m).month
      = d.year * 12 + d.month - m) ∧
    (1 ≤ (monthsAgo d m).month ∧ (monthsAgo d m).month ≤ 12) ∧
    (monthsAgo ⟨2020, 3, 15⟩ 1).year = 2020 ∧
    (monthsAgo ⟨2020, 3, 15⟩ 1).month = 2 ∧
    (monthsAgo ⟨2020, 3, 15⟩ 12).year = 2019 ∧
    (monthsAgo ⟨2020, 3, 15⟩ 12).month = 3 := by
  refine ⟨?_, ⟨?_, ?_⟩, by decide, by decide, by decide, by decide⟩ <;>
    · simp only [monthsAgo]
      omega

/-- C7: the wet-days aggregator returns the number of days of the target
calendar month whose precipitation strictly exceeds the wet-day threshold;
with the default threshold of 1 mm, the series
[(2020-01-05, 15 mm), (2020-01-20, 2 mm)] gives 2 for January 2020. -/
theorem wet_days_spec (target : Date) (precip : List Day) (t : ℚ) :
    calc_wet_days target precip t = (exceedingDays target precip t).length ∧
    calc_wet_days ⟨2020, 1, 25⟩
      [⟨⟨2020, 1, 5⟩, 15⟩, ⟨⟨2020, 1, 20⟩, 2⟩] = 2 := by
  constructor
  · simp only [calc_wet_days, exceedingDays, List.filter_filter]
    congr 1
    exact List.filter_congr (fun d _ => by simp [Bool.and_comm])
  · decide

/-- C1: the extreme-precipitation aggregator returns (n, e, i) where n is
the number of days of the target calendar month strictly above the
threshold t, e is their precipitation sum minus t·n, and i is e divided by
the wet-day average a when a > 0 and 0 otherwise; a month with no exceeding
day gives exactly (0, 0, 0); the scenario with one 80 mm and one 10 mm day,
t = 50 and a = 20 gives (1, 30, 1.5). -/
theorem extreme_precip_spec (target : Date) (precip : List Day) (t a : ℚ) :
    calc_extreme_precip target precip t (Fl.val a) =
      ((exceedingDays target precip t).length,
        excessOf target precip t,
        if 0 < a then Fl.val (excessOf target precip t / a)
        else Fl.val 0) ∧
    (exceedingDays target precip t = [] →
      calc_extreme_precip target precip t (Fl.val a) = (0, 0, Fl.val 0)) ∧
    calc_extreme_precip ⟨2020, 6, 15⟩
      [⟨⟨2020, 6, 3⟩, 80⟩, ⟨⟨2020, 6, 7⟩, 10⟩] 50 (Fl.val 20) =
      (1, 30, Fl.val (3 / 2)) := by
  have hscen : calc_extreme_precip ⟨2020, 6, 15⟩
      [⟨⟨2020, 6, 3⟩, 80⟩, ⟨⟨2020, 6, 7⟩, 10⟩] 50 (Fl.val 20) =
      (1, 30, Fl.val (3 / 2)) := by
    have hd : Fl.val 30 / Fl.val 20 = Fl.val (3 / 2) := by
      show Fl.div _ _ = _
      rw [Fl.div]
      norm_num
    norm_num [calc_extreme_precip, inMonth, List.filter, Fl.ltb, hd]
  have hx : (precip.filter (inMonth target)).filter
      (fun d => decide (t < d.tp)) = exceedingDays target precip t := by
    simp only [exceedingDays, List.filter_filter]
    exact List.filter_congr (fun d _ => by simp [Bool.and_comm])
  have hmain : calc_extreme_precip target precip t (Fl.val a) =
      ((exceedingDays target precip t).length,
        excessOf target precip t,
        if 0 < a then Fl.val (excessOf target precip t / a)
        else Fl.val 0) := by
    simp only [calc_extreme_precip, hx, excessOf]
    by_cases hlen : (exceedingDays target precip t).length = 0
    · rw [List.length_eq_zero] at hlen
      rw [hlen]
      by_cases ha : 0 < a <;> simp [ha]
    · rw [if_neg hlen]
      refine Prod.ext rfl (Prod.ext rfl ?_)
      simp only [Fl.ltb_val_val]
      by_cases ha : 0 < a
      · rw [if_pos (by exact_mod_cast decide_eq_true ha), if_pos ha,
          Fl.val_div_val, if_neg (ne_of_gt ha)]
      · rw [if_neg (by simpa using ha), if_neg ha]
  refine ⟨hmain, ?_, hscen⟩
  intro h
  rw [hmain, h]
  simp [excessOf, h]

/-- Witness for C1: a month without exceeding days gives exactly
(0, 0, 0). -/
theorem extreme_precip_spec_witness :
    calc_extreme_precip ⟨2020, 1, 10⟩ [] 5 (Fl.val 2) = (0, 0, Fl.val 0) :=
  (extreme_precip_spec ⟨2020, 1, 10⟩ [] 5 2).2.1 rfl

/-- C2: with real-valued historical statistics, the monthly RSD equals
((actual month total − historical mean of that calendar month) / pooled
monthly std) × (historical mean of that calendar month / historical annual
mean), and equals 0 whenever the pooled std or the annual mean is zero. -/
theorem monthly_rsd_formula (target : Date) (precip : List Day)
    (mm : ℤ → ℚ) (s a : ℚ) :
    (s ≠ 0 → a ≠ 0 →
      calc_monthly_rsd target precip
          ⟨fun mo => Fl.val (mm mo), Fl.val s, Fl.val a⟩ =
        Fl.val
          (((monthTotal precip target.year target.month - mm target.month)
              / s) * (mm target.month / a))) ∧
    (s = 0 ∨ a = 0 →
      calc_monthly_rsd target precip
          ⟨fun mo => Fl.val (mm mo), Fl.val s, Fl.val a⟩ = Fl.val 0) := by
  constructor
  · intro hs ha
    simp only [calc_monthly_rsd]
    rw [if_neg (by simp [hs, ha])]
    simp only [Fl.val_sub_val, Fl.val_div_val, if_neg hs, if_neg ha,
      Fl.val_mul_val]
  · intro h
    simp only [calc_monthly_rsd]
    rw [if_pos (by rcases h with h | h <;> simp [h])]

/-- Witness for C2: empty series, monthly mean 4, std 2, annual mean 8
give RSD ((0 − 4)/2)·(4/8) = −1; std 0 gives 0. -/
theorem monthly_rsd_formula_witness :
    calc_monthly_rsd ⟨2020, 2, 1⟩ []
        ⟨fun _ => Fl.val 4, Fl.val 2, Fl.val 8⟩ = Fl.val (-1) ∧
    calc_monthly_rsd ⟨2020, 2, 1⟩ []
        ⟨fun _ => Fl.val 4, Fl.val 0, Fl.val 8⟩ = Fl.val 0 := by
  constructor
  · have h := (monthly_rsd_formula ⟨2020, 2, 1⟩ [] (fun _ => 4) 2 8).1
      (by norm_num) (by norm_num)
    rw [h]
    norm_num [monthTotal]
  · exact (monthly_rsd_formula ⟨2020, 2, 1⟩ [] (fun _ => 4) 0 8).2
      (Or.inl rfl)

/-- Counterexample to C3 as stated: the statistics of an empty historical
series are NaN (not a number), and the dependent monthly RSD is then NaN
rather than a real number equal to zero — the `== 0` guard does not catch
NaN. -/
theorem rsd_nan_counterexample :
    (calculate_historical_stats id []).monthly_std = Fl.nan ∧
    (calculate_historical_stats id []).annual_mean = Fl.nan ∧
    calc_monthly_rsd ⟨2020, 1, 15⟩ [] (calculate_historical_stats id []) =
      Fl.nan ∧
    Fl.nan ≠ Fl.val 0 :=
  ⟨rfl, rfl, rfl, by decide⟩

/-- C3 amended: a reference statistic that is degenerate as an exact zero
(zero pooled std or zero annual mean) forces the monthly RSD to 0, and a
wet-day average that is not a positive real number (NaN included, e.g. the
mean of an empty wet-day series) forces the extreme intensity to 0; a NaN
historical statistic, however, propagates NaN into the monthly RSD instead
of being replaced by zero (see `rsd_nan_counterexample`). -/
theorem degenerate_stats_zero (target : Date) (precip : List Day)
    (hs : HistStats) (t : ℚ) (avg : Fl) :
    (hs.monthly_std = Fl.val 0 ∨ hs.annual_mean = Fl.val 0 →
      calc_monthly_rsd target precip hs = Fl.val 0) ∧
    (avg = Fl.nan ∨ (∃ q, avg = Fl.val q ∧ q ≤ 0) →
      (calc_extreme_precip target precip t avg).2.2 = Fl.val 0) := by
  constructor
  · intro h
    rcases h with h | h <;>
      simp [calc_monthly_rsd, h]
  · intro h
    have hltb : (Fl.val 0).ltb avg = false := by
      rcases h with rfl | ⟨q, rfl, hq⟩
      · rfl
      · simp [Fl.ltb, not_lt.mpr hq]
    simp only [calc_extreme_precip]
    split
    · rfl
    · simp [hltb]

/-- Witness for C3 amended: zero std forces RSD 0 on concrete data, and a
NaN wet-day average forces the intensity of a month with an exceeding day
to 0. -/
theorem degenerate_stats_zero_witness :
    calc_monthly_rsd ⟨2020, 1, 1⟩ [] ⟨fun _ => Fl.val 1, Fl.val 0, Fl.val 5⟩
      = Fl.val 0 ∧
    (calc_extreme_precip ⟨2020, 6, 15⟩ [⟨⟨2020, 6, 3⟩, 80⟩] 50
      Fl.nan).2.2 = Fl.val 0 :=
  ⟨(degenerate_stats_zero ⟨2020, 1, 1⟩ []
      ⟨fun _ => Fl.val 1, Fl.val 0, Fl.val 5⟩ 0 (Fl.val 0)).1 (Or.inl rfl),
   (degenerate_stats_zero ⟨2020, 6, 15⟩ [⟨⟨2020, 6, 3⟩, 80⟩]
      ⟨fun _ => Fl.val 1, Fl.val 0, Fl.val 5⟩ 50 Fl.nan).2 (Or.inl rfl)⟩

/-- C4: for a record whose daily series loads, the first k monthly-RSD
columns are the individually computed monthly RSD values for offsets 1..k
counted backward from the reference date, the standalone
`calc_cumulative_rsd` at k equals their running sum, and the driver's
`rsd_cumulative_k` column holds that same prefix sum — the standalone
function and the per-row prefix-sum computation agree (k = 1..12). -/
theorem cumulative_rsd_agrees (sq : ℚ → ℚ) (env : Env) (r : Row)
    (pr : List Day) (out : RainfallDeviation.OutRow) (k : ℕ)
    (h1 : 1 ≤ k) (h2 : k ≤ 12)
    (hl : RainfallDeviation.load_precip_data env r.dhsid r.survey = .ok pr)
    (hp : RainfallDeviation.process_row sq env r = .ok out) :
    out.monthly.take k = (List.range k).map (fun i =>
      calc_monthly_rsd (monthsAgo r.death_date (i + 1)) pr
        (RainfallDeviation.statsFor sq env r.dhsid pr)) ∧
    calc_cumulative_rsd r.death_date pr
        (RainfallDeviation.statsFor sq env r.dhsid pr) k =
      pySum (out.monthly.take k) ∧
    out.cumulative[k - 1]? = some (pySum (out.monthly.take k)) := by
  obtain ⟨hm, hc, -, -, -⟩ := RainfallDeviation.process_row_shape hl hp
  have htake : out.monthly.take k = (List.range k).map (fun i =>
      calc_monthly_rsd (monthsAgo r.death_date (i + 1)) pr
        (RainfallDeviation.statsFor sq env r.dhsid pr)) := by
    rw [hm, ← List.map_take, List.take_range, min_eq_left h2]
  refine ⟨htake, ?_, ?_⟩
  · rw [calc_cumulative_rsd_eq_pySum, htake]
  · have hk : k - 1 < 12 := by omega
    rw [hc, List.getElem?_map, List.getElem?_range hk, Option.map_some']
    have : k - 1 + 1 = k := by omega
    rw [this]

/-- Witness for C4 at k = 1 for a concrete record whose series is empty:
the cumulative column and the standalone cumulative function agree. -/
theorem cumulative_rsd_agrees_witness :
    outN.monthly.take 1 = [calc_monthly_rsd (monthsAgo rowA.death_date 1)
      [] (RainfallDeviation.statsFor id envB rowA.dhsid [])] ∧
    calc_cumulative_rsd rowA.death_date []
        (RainfallDeviation.statsFor id envB rowA.dhsid []) 1 =
      pySum (outN.monthly.take 1) ∧
    outN.cumulative[0]? = some (pySum (outN.monthly.take 1)) := by
  have h := cumulative_rsd_agrees id envB rowA [] outN 1
    (by decide) (by decide) rfl rfl
  exact ⟨h.1, h.2.1, h.2.2⟩

theorem except_toOption_eq_some {e : Except String α} {a : α}
    (h : e.toOption = some a) : e = .ok a := by
  cases e with
  | ok b => simpa [Except.toOption] using h
  | error msg => simp [Except.toOption] at h

/-- C6: in each of the three pipelines, every record whose reference date
has year < 1981 is absent from the output, every record with year ≥ 1981
survives the filter, and the rows of a successful output are exactly the
minimum-year-filtered input rows, in input order (a sublist of the
input). -/
theorem min_year_filter_spec (rows : List Row) (env : Env) (sq : ℚ → ℚ) :
    List.Sublist (filterMinYear rows) rows ∧
    (∀ r ∈ rows, 1981 ≤ r.death_date.year → r ∈ filterMinYear rows) ∧
    (∀ r ∈ filterMinYear rows, 1981 ≤ r.death_date.year) ∧
    (∀ r : Row, r.death_date.year < 1981 → r ∉ filterMinYear rows) ∧
    (∀ out, ExtremePrecip.process_file env rows = some out →
      out.map (·.row) = filterMinYear rows) ∧
    (∀ out, WetDays.process_file env rows = some out →
      out.map (·.row) = filterMinYear rows) ∧
    (∀ out, RainfallDeviation.process_file sq env rows = some out →
      out.map (·.row) = filterMinYear rows) := by
  refine ⟨List.filter_sublist rows, ?_, ?_, ?_, ?_, ?_, ?_⟩
  · intro r hr hy
    simp only [filterMinYear, List.mem_filter]
    exact ⟨hr, by simpa using hy⟩
  · intro r hr
    have := (List.mem_filter.mp hr).2
    simpa using this
  · intro r hy hmem
    have := (List.mem_filter.mp hmem).2
    simp at this
    omega
  · intro out hout
    unfold ExtremePrecip.process_file at hout
    cases htf : env.thresholdFile with
    | none => rw [htf] at hout; cases hout
    | some tdf =>
      rw [htf] at hout
      exact mapE_ok_map (fun x y hxy => extreme_process_row_ok_row hxy)
        (except_toOption_eq_some hout)
  · intro out hout
    exact mapE_ok_map (fun x y hxy => wet_process_row_ok_row hxy)
      (except_toOption_eq_some hout)
  · intro out hout
    exact mapE_ok_map
      (fun x y hxy => rsd_process_row_ok_row hxy)
      (except_toOption_eq_some hout)

/-- Witness for C6: the 1990 record survives the filter, the 1975 record is
dropped, and for an input holding only the 1975 record all three pipelines
output exactly the empty (filtered) row set. -/
theorem min_year_filter_spec_witness :
    rowA ∈ filterMinYear [rowA, rowOld] ∧
    rowOld ∉ filterMinYear [rowA, rowOld] ∧
    ([] : List ExtremePrecip.OutRow).map (·.row) = filterMinYear [rowOld] ∧
    ([] : List WetDays.OutRow).map (·.row) = filterMinYear [rowOld] ∧
    ([] : List RainfallDeviation.OutRow).map (·.row) =
      filterMinYear [rowOld] := by
  have h1 := min_year_filter_spec [rowA, rowOld] envA id
  have h2 := min_year_filter_spec [rowOld] envA id
  exact ⟨h1.2.1 rowA (by decide) (by decide),
    h1.2.2.2.1 rowOld (by decide),
    h2.2.2.2.2.1 [] rfl,
    h2.2.2.2.2.2.1 [] rfl,
    h2.2.2.2.2.2.2 [] rfl⟩

/-- C8: for every output row of the wet-days pipeline, the annual wet-days
column equals the sum of that row's 12 monthly wet-days counts. -/
theorem wet_days_annual_additive (env : Env) (rows : List Row)
    (out : List WetDays.OutRow)
    (h : WetDays.process_file env rows = some out) :
    ∀ o ∈ out, o.wet_days_annual = o.monthly.sum := by
  intro o ho
  unfold WetDays.process_file at h
  obtain ⟨r, -, hr⟩ := mapE_ok_mem (except_toOption_eq_some h) o ho
  exact WetDays.process_row_annual hr

/-- Witness for C8: a concrete run with two wet days in April 1990 (the
1 mm day is not counted under the strict threshold) whose annual column is
the sum of the monthly ones. -/
theorem wet_days_annual_additive_witness :
    WetDays.process_file envC [rowA] = some [outC] ∧
    outC.wet_days_annual = outC.monthly.sum := by
  have hp : WetDays.process_file envC [rowA] = some [outC] := rfl
  exact ⟨hp, wet_days_annual_additive envC [rowA] [outC] hp outC
    (List.mem_singleton.mpr rfl)⟩

theorem extreme_process_row_error_of_load {env : Env}
    {tdf : List (String × ℚ)} {r : Row} {e : String}
    (h : ExtremePrecip.load_precip_data env r.dhsid r.survey tdf =
      .error e) :
    ExtremePrecip.process_row env tdf r = .error e := by
  unfold ExtremePrecip.process_row
  rw [h]

theorem wet_process_row_error_of_load {env : Env} {r : Row} {e : String}
    (h : WetDays.load_precip_data env r.dhsid r.survey = .error e) :
    WetDays.process_row env r = .error e := by
  unfold WetDays.process_row
  rw [h]

theorem rsd_process_row_error_of_load {sq : ℚ → ℚ}
    {env : Env} {r : Row} {e : String}
    (h : RainfallDeviation.load_precip_data env r.dhsid r.survey =
      .error e) :
    RainfallDeviation.process_row sq env r = .error e := by
  unfold RainfallDeviation.process_row
  rw [h]

/-- Counterexample to C9 as stated: in the rainfall-deviation pipeline, a
lookup of a record's DHSID that finds no matching row in the
threshold/statistics table does NOT fail the file — `load_precomputed_stats`
returns `none` and the driver falls back to on-the-fly statistics, so the
file succeeds. -/
theorem stats_lookup_miss_not_fatal :
    RainfallDeviation.load_precomputed_stats envB rowA.dhsid = none ∧
    RainfallDeviation.process_file id envB [rowA] = some [outN] ∧
    some [outN] ≠ (none : Option (List RainfallDeviation.OutRow)) :=
  ⟨rfl, rfl, by simp⟩

/-- C9 amended: a city-list mapping lookup that finds no matching row for a
surviving record fails the whole file in all three pipelines (exactly like
a missing file), and a p999 threshold-table lookup miss fails the
extreme-precipitation file; but the deviation pipeline's precomputed-stats
lookup never fails a row whose series loads — it falls back to on-the-fly
statistics (see `stats_lookup_miss_not_fatal`). -/
theorem lookup_miss_spec (env : Env) (sq : ℚ → ℚ) (rows : List Row)
    (r : Row) (cm : List (String × ℤ)) (tdf : List (String × ℚ))
    (hr : r ∈ filterMinYear rows) :
    (env.cityLists r.survey = some cm →
      cm.find? (fun p => p.1 == r.dhsid) = none →
      ExtremePrecip.process_file env rows = none ∧
      WetDays.process_file env rows = none ∧
      RainfallDeviation.process_file sq env rows = none) ∧
    (env.thresholdFile = some tdf →
      tdf.find? (fun p => p.1 == r.dhsid) = none →
      ExtremePrecip.process_file env rows = none) ∧
    (∀ pr, RainfallDeviation.load_precip_data env r.dhsid r.survey = .ok pr →
      ∃ o, RainfallDeviation.process_row sq env r = .ok o) := by
  refine ⟨?_, ?_, ?_⟩
  · intro hcm hfind
    have hwet : WetDays.process_row env r = .error "DHSID not in city list" :=
      wet_process_row_error_of_load
        (by simp [WetDays.load_precip_data, hcm, hfind])
    have hrsd : RainfallDeviation.process_row sq env r =
        .error "DHSID not in city list" :=
      rsd_process_row_error_of_load
        (by simp [RainfallDeviation.load_precip_data, hcm, hfind])
    refine ⟨?_, ?_, ?_⟩
    · cases htf : env.thresholdFile with
      | none => simp [ExtremePrecip.process_file, htf]
      | some tdf' =>
        have hext : ExtremePrecip.process_row env tdf' r =
            .error "DHSID not in city list" :=
          extreme_process_row_error_of_load
            (by simp [ExtremePrecip.load_precip_data, hcm, hfind])
        obtain ⟨e', he'⟩ := mapE_error_of_mem hr hext
        simp [ExtremePrecip.process_file, htf, he', Except.toOption]
    · obtain ⟨e', he'⟩ := mapE_error_of_mem hr hwet
      simp [WetDays.process_file, he', Except.toOption]
    · obtain ⟨e', he'⟩ := mapE_error_of_mem hr hrsd
      simp [RainfallDeviation.process_file, he', Except.toOption]
  · intro htf hmiss
    have hpr : ∃ e, ExtremePrecip.process_row env tdf r = .error e := by
      cases hc : env.cityLists r.survey with
      | none =>
        exact ⟨"city list file not found",
          extreme_process_row_error_of_load
            (by simp [ExtremePrecip.load_precip_data, hc])⟩
      | some cm2 =>
        cases hf : cm2.find? (fun p => p.1 == r.dhsid) with
        | none =>
          exact ⟨"DHSID not in city list",
            extreme_process_row_error_of_load
              (by simp [ExtremePrecip.load_precip_data, hc, hf])⟩
        | some c =>
          cases hpf : env.precipFiles c.2 with
          | none =>
            exact ⟨"precip file not found",
              extreme_process_row_error_of_load
                (by simp [ExtremePrecip.load_precip_data, hc, hf, hpf])⟩
          | some pr =>
            exact ⟨"DHSID not in threshold table",
              extreme_process_row_error_of_load
                (by simp [ExtremePrecip.load_precip_data, hc, hf, hpf,
                  hmiss])⟩
    obtain ⟨e, he⟩ := hpr
    obtain ⟨e', he'⟩ := mapE_error_of_mem hr he
    simp [ExtremePrecip.process_file, htf, he', Except.toOption]
  · intro pr hl
    unfold RainfallDeviation.process_row
    rw [hl]
    exact ⟨_, rfl⟩

/-- Witness for C9 amended: with an empty city list every pipeline fails
the file; with an empty threshold table the extreme pipeline fails the
file; and under the same missing-stats table the deviation row still
succeeds. -/
theorem lookup_miss_spec_witness :
    (ExtremePrecip.process_file envD [rowA] = none ∧
     WetDays.process_file envD [rowA] = none ∧
     RainfallDeviation.process_file id envD [rowA] = none) ∧
    ExtremePrecip.process_file envB [rowA] = none ∧
    (∃ o, RainfallDeviation.process_row id envB rowA = .ok o) := by
  refine ⟨(lookup_miss_spec envD id [rowA] rowA [] [("X", 50)]
    (by decide)).1 rfl rfl, ?_, ?_⟩
  · exact (lookup_miss_spec envB id [rowA] rowA [("X", 1)] []
      (by decide)).2.1 rfl rfl
  · exact (lookup_miss_spec envB id [rowA] rowA [("X", 1)] []
      (by decide)).2.2 [] rfl

theorem RainfallDeviation.process_row_split {sq : ℚ → ℚ} {env : Env}
    {r : Row} {y : RainfallDeviation.OutRow}
    (h : RainfallDeviation.process_row sq env r = .ok y) :
    y.rsd_positive =
      (if (Fl.val 0).ltb y.rsd_annual then y.rsd_annual else Fl.val 0) ∧
    y.rsd_negative =
      (if y.rsd_annual.ltb (Fl.val 0) then y.rsd_annual else Fl.val 0) := by
  unfold RainfallDeviation.process_row at h
  cases hl : RainfallDeviation.load_precip_data env r.dhsid r.survey with
  | error e => rw [hl] at h; cases h
  | ok pr =>
    rw [hl] at h
    cases h
    exact ⟨rfl, rfl⟩

theorem pySum_replicate_val_zero (n : ℕ) :
    pySum (List.replicate n (Fl.val 0)) = Fl.val 0 := by
  have key : ∀ (n : ℕ) (q : ℚ),
      List.foldl Fl.add (Fl.val q) (List.replicate n (Fl.val 0)) =
        Fl.val q := by
    intro n
    induction n with
    | zero => intro q; rfl
    | succ m ih =>
      intro q
      simp only [List.replicate_succ, List.foldl_cons]
      rw [show Fl.add (Fl.val q) (Fl.val 0) = Fl.val q from by
        simp [Fl.add]]
      exact ih q
  exact key n 0

/-- Counterexample to C10 as stated: an output row whose annual RSD is NaN
(empty historical series, so all statistics are NaN) has rsd_positive =
rsd_negative = 0, and their sum 0 does not equal the annual RSD. -/
theorem rsd_split_nan_counterexample :
    RainfallDeviation.process_file id envB [rowA] = some [outN] ∧
    outN.rsd_annual = Fl.nan ∧
    outN.rsd_positive + outN.rsd_negative = Fl.val 0 ∧
    outN.rsd_positive + outN.rsd_negative ≠ outN.rsd_annual := by
  refine ⟨rfl, rfl, ?_, ?_⟩
  · show Fl.val 0 + Fl.val 0 = Fl.val 0
    rw [Fl.val_add_val]
    norm_num
  · show Fl.val 0 + Fl.val 0 ≠ Fl.nan
    rw [Fl.val_add_val]
    exact fun hc => Fl.noConfusion hc

/-- C10 amended: for every output row of the deviation pipeline whose
annual RSD is a real number q (not NaN), rsd_positive equals max q 0 (the
annual RSD when positive, else 0), rsd_negative equals min q 0 (the annual
RSD when negative, else 0), and rsd_positive + rsd_negative equals the
annual RSD; when the annual RSD is NaN both split columns are 0 and the
decomposition fails (see `rsd_split_nan_counterexample`). -/
theorem rsd_split_spec (sq : ℚ → ℚ) (env : Env) (rows : List Row)
    (out : List RainfallDeviation.OutRow) (q : ℚ)
    (h : RainfallDeviation.process_file sq env rows = some out) :
    ∀ o ∈ out, o.rsd_annual = Fl.val q →
      o.rsd_positive = Fl.val (max q 0) ∧
      o.rsd_negative = Fl.val (min q 0) ∧
      o.rsd_positive + o.rsd_negative = o.rsd_annual := by
  intro o ho hq
  unfold RainfallDeviation.process_file at h
  obtain ⟨r, -, hr⟩ := mapE_ok_mem (except_toOption_eq_some h) o ho
  obtain ⟨hpos, hneg⟩ := RainfallDeviation.process_row_split hr
  rw [hq] at hpos hneg
  simp only [Fl.ltb_val_val] at hpos hneg
  rcases lt_trichotomy q 0 with hlt | rfl | hgt
  · rw [if_neg (by simpa using not_lt.mpr hlt.le)] at hpos
    rw [if_pos (by simpa using hlt)] at hneg
    refine ⟨?_, ?_, ?_⟩
    · rw [hpos, max_eq_right hlt.le]
    · rw [hneg, min_eq_left hlt.le]
    · rw [hpos, hneg, hq, Fl.val_add_val, zero_add]
  · rw [if_neg (by simp)] at hpos
    rw [if_neg (by simp)] at hneg
    refine ⟨?_, ?_, ?_⟩
    · rw [hpos, max_self]
    · rw [hneg, min_self]
    · rw [hpos, hneg, hq, Fl.val_add_val, zero_add]
  · rw [if_pos (by simpa using hgt)] at hpos
    rw [if_neg (by simpa using not_lt.mpr hgt.le)] at hneg
    refine ⟨?_, ?_, ?_⟩
    · rw [hpos, max_eq_left hgt.le]
    · rw [hneg, min_eq_right hgt.le]
    · rw [hpos, hneg, hq, Fl.val_add_val, add_zero]

/-- Witness for C10 amended: a concrete run whose annual RSD is the real
number 0 (zero-std guard), where the split columns decompose it. -/
theorem rsd_split_spec_witness :
    RainfallDeviation.process_file id envZ [rowA] = some [outZ] ∧
    outZ.rsd_positive = Fl.val (max 0 0) ∧
    outZ.rsd_negative = Fl.val (min 0 0) ∧
    outZ.rsd_positive + outZ.rsd_negative = outZ.rsd_annual := by
  have h0 : RainfallDeviation.process_row id envZ rowA =
      .ok { row := rowA,
            monthly := List.replicate 12 (Fl.val 0),
            cumulative := (List.range 12).map (fun m =>
              pySum ((List.replicate 12 (Fl.val 0)).take (m + 1))),
            rsd_annual := pySum ((List.replicate 12 (Fl.val 0)).take 12),
            rsd_positive := if (Fl.val 0).ltb
                (pySum ((List.replicate 12 (Fl.val 0)).take 12)) then
              pySum ((List.replicate 12 (Fl.val 0)).take 12) else Fl.val 0,
            rsd_negative := if (pySum ((List.replicate 12
                (Fl.val 0)).take 12)).ltb (Fl.val 0) then
              pySum ((List.replicate 12 (Fl.val 0)).take 12)
            else Fl.val 0 } := rfl
  have hann : pySum ((List.replicate 12 (Fl.val 0)).take 12) = Fl.val 0 := by
    rw [List.take_replicate, pySum_replicate_val_zero]
  have hcument : ∀ m ∈ List.range 12,
      pySum ((List.replicate 12 (Fl.val 0)).take (m + 1)) = Fl.val 0 :=
    fun m _ => by rw [List.take_replicate, pySum_replicate_val_zero]
  have hp : RainfallDeviation.process_row id envZ rowA = .ok outZ := by
    rw [h0, hann]
    rw [List.map_congr_left hcument, List.map_const', List.length_range]
    rfl
  have hfile : RainfallDeviation.process_file id envZ [rowA] =
      some [outZ] := by
    unfold RainfallDeviation.process_file
    rw [show filterMinYear [rowA] = [rowA] from rfl]
    simp only [mapE]
    rw [hp]
    rfl
  have h := rsd_split_spec id envZ [rowA] [outZ] 0 hfile outZ
    (List.mem_singleton.mpr rfl) rfl
  exact ⟨hfile, h.1, h.2.1, h.2.2⟩
